import Mathlib

/-!
Shallow embedding of the MeshStat ESP32 firmware
(`src/esp32_raspi_code/final_esp32_code/Code_for_esp32_DANIS_HOUSE_FINAL.ino`).

Modelling conventions:
* IEEE `float`/`double` arithmetic is idealised as exact rational arithmetic
  (`ℚ`); the transcendental library calls `sqrt`, `log10`, `log` and the ADC
  calibration table `esp_adc_cal_raw_to_voltage` are abstracted as parameters
  (a `FloatLib` record), since the firmware delegates them to libm/esp-idf.
  `NAN` float values are represented by `Option.none` where the code tests
  them with `isnan`.
* Machine integers are `Nat`/`Int`.  The per-minute sample counters
  (`splCount`, `tempCount`, both `uint32_t`) are reset every minute and can
  reach at most a few thousand, far below `2^32`, so overflow is immaterial
  and they are modelled as `Nat`.  The `millis()` comparison uses the
  `uint32_t` wrap-around subtraction, modelled explicitly mod `2^32`.
* The single-threaded `loop()` body (lines 366-497) is split into the
  successive phases of its source text; `aggStep` composes them in source
  order.  The ESP-NOW receive callback `onRecv` and the mailbox drain at the
  top of `loop()` are modelled separately (they touch only the mailbox).
-/

namespace MeshStat

/-- Calendar fields of one `rtc.now()` reading (RTClib `DateTime`). -/
structure DateTimeR where
  year : Int
  month : Int
  day : Int
  hour : Int
  minute : Int
  second : Int
deriving DecidableEq, Repr

/-- The five calendar fields that identify a one-minute bucket. -/
structure BucketKey where
  year : Int
  month : Int
  day : Int
  hour : Int
  minute : Int
deriving DecidableEq, Repr

/-- The calendar-minute key of a clock reading. -/
def DateTimeR.key (t : DateTimeR) : BucketKey :=
  ⟨t.year, t.month, t.day, t.hour, t.minute⟩

/-- Abstraction of the floating-point library / ADC calibration calls the
firmware makes: `sqrt`, `log10`, `logf` (natural log) and
`esp_adc_cal_raw_to_voltage` (raw ADC count to millivolts). -/
structure FloatLib where
  sqrt : ℚ → ℚ
  log10 : ℚ → ℚ
  ln : ℚ → ℚ
  adcRawToVoltage : Int → Nat

/-- Constant `FULL_SCALE_24 = (double)(1 << 23)` (line 49). -/
def FULL_SCALE_24 : ℚ := 8388608

/-- Constant `ALPHA = 0.15` (line 52), the dBFS smoothing coefficient. -/
def ALPHA : ℚ := 15 / 100

/-- Constant `CAL_OFFSET_DB = -5.7` (line 54). -/
def CAL_OFFSET_DB : ℚ := -57 / 10

/-- Thermistor circuit constants (lines 68-74, 90-91). -/
def VCC : ℚ := 33 / 10

def R_FIXED_OHMS : ℚ := 10000

def R0 : ℚ := 10000

def T0_C : ℚ := 25

def BETA : ℚ := 3950

def TEMP_CAL_OFFSET_C : ℚ := 0

def THERMISTOR_TO_3V3 : Bool := false

/-- Constant `TEMP_SAMPLE_PERIOD_MS = 250` (line 82). -/
def TEMP_SAMPLE_PERIOD_MS : Nat := 250

/-- Arithmetic right shift by 8 of an `int32_t` sample (`samples[i] >> 8`,
line 402): floor division by `2^8`. -/
def shift8 (s : Int) : Int := Int.fdiv s 256

/-- Running `sum_sq` accumulated over the block (lines 399-404): the sum of the
squares of the `>> 8`-shifted samples. -/
def sumSq (block : List Int) : ℚ :=
  (block.map (fun s => ((shift8 s : ℚ)) ^ 2)).sum

/-- Block `rms = sqrt(sum_sq / (double)n)` (line 406). -/
def blockRms (L : FloatLib) (block : List Int) : ℚ :=
  L.sqrt (sumSq block / (block.length : ℚ))

/-- Instantaneous dBFS of one audio block (lines 408-409): floor `-120`
unless `rms > 1.0`, in which case `20*log10(rms/FULL_SCALE_24)`. -/
def blockDbfs (L : FloatLib) (block : List Int) : ℚ :=
  if 1 < blockRms L block then 20 * L.log10 (blockRms L block / FULL_SCALE_24)
  else -120

/-- Estimate `estSPL = dbfs_smooth + 120.0 + CAL_OFFSET_DB` (line 413). -/
def estSPLOf (sm : ℚ) : ℚ := sm + 120 + CAL_OFFSET_DB

/-- The aggregator's mutable globals (lines 51, 60-81). -/
structure AggState where
  dbfsSmooth : ℚ
  minuteAligned : Bool
  bucketYear : Int
  bucketMonth : Int
  bucketDay : Int
  bucketHour : Int
  bucketMinute : Int
  splSum : ℚ
  dbfsSum : ℚ
  splCount : Nat
  splMax : ℚ
  tempSumC : ℚ
  tempCount : Nat
  tempMinC : ℚ
  tempMaxC : ℚ
  lastTempMs : Nat
deriving DecidableEq, Repr

/-- The key of the currently open bucket. -/
def AggState.bucketKey (st : AggState) : BucketKey :=
  ⟨st.bucketYear, st.bucketMonth, st.bucketDay, st.bucketHour, st.bucketMinute⟩

/-- Initial values of the globals at boot (lines 51, 60-79, 81). -/
def initState : AggState :=
  { dbfsSmooth := -90, minuteAligned := false,
    bucketYear := -1, bucketMonth := -1, bucketDay := -1,
    bucketHour := -1, bucketMinute := -1,
    splSum := 0, dbfsSum := 0, splCount := 0, splMax := -999,
    tempSumC := 0, tempCount := 0, tempMinC := 999, tempMaxC := -999,
    lastTempMs := 0 }

/-- Function `readThermistorC_legacyADC1` (lines 168-195).  `NAN` returns are
`none`; the final Celsius value is returned as `some`. -/
def readThermistorC_legacyADC1 (L : FloatLib) (raw : Int) : Option ℚ :=
  if raw ≤ 0 ∨ 4095 ≤ raw then none
  else
    let mv := L.adcRawToVoltage raw
    if mv = 0 then none
    else
      let v : ℚ := (mv : ℚ) / 1000
      if v ≤ 1 / 1000 ∨ VCC - 1 / 1000 ≤ v then none
      else
        let rTherm : ℚ :=
          if THERMISTOR_TO_3V3 then R_FIXED_OHMS * (VCC / v - 1)
          else R_FIXED_OHMS * (v / (VCC - v))
        if rTherm ≤ 0 then none
        else
          let T0_K := T0_C + 27315 / 100
          let invT := 1 / T0_K + (1 / BETA) * L.ln (rTherm / R0)
          let T_K := 1 / invT
          some (T_K - 27315 / 100 + TEMP_CAL_OFFSET_C)

/-- Loudness part of one loop iteration (lines 398-414): compute the block
dBFS, update the exponential smoothing state and the running `splMax`. -/
def loudnessPhase (L : FloatLib) (block : List Int) (st : AggState) : AggState :=
  let dbfs := blockDbfs L block
  let sm := (1 - ALPHA) * st.dbfsSmooth + ALPHA * dbfs
  let e := estSPLOf sm
  { st with dbfsSmooth := sm, splMax := if st.splMax < e then e else st.splMax }

/-- The bucket (re)initialisation block that appears verbatim at lines
421-435 and 475-489: adopt `now`'s calendar fields as the open bucket and
zero every accumulator field.  `dbfs_smooth` and `lastTempMs` are not
touched. -/
def rollReset (now : DateTimeR) (st : AggState) : AggState :=
  { st with bucketYear := now.year, bucketMonth := now.month,
            bucketDay := now.day, bucketHour := now.hour,
            bucketMinute := now.minute,
            splSum := 0, dbfsSum := 0, splCount := 0, splMax := -999,
            tempSumC := 0, tempCount := 0,
            tempMinC := 999, tempMaxC := -999 }

/-- Minute-alignment block (lines 418-440).  `none` models the
`delay(20); return;` early exit while still unaligned. -/
def alignPhase (now : DateTimeR) (st : AggState) : Option AggState :=
  if st.minuteAligned then some st
  else if now.second = 0 then
    some { rollReset now st with minuteAligned := true }
  else none

/-- The `uint32_t` wrap-around difference `ms - lastTempMs` (line 443),
for arguments below `2^32`. -/
def elapsed32 (ms last : Nat) : Nat := (ms + 2 ^ 32 - last) % 2 ^ 32

/-- Temperature sampling block (lines 442-452): at most one sample per
250 ms; a `NAN` (`none`) or out-of-range sample is not accumulated. -/
def tempPhase (ms : Nat) (tC : Option ℚ) (st : AggState) : AggState :=
  if TEMP_SAMPLE_PERIOD_MS ≤ elapsed32 ms st.lastTempMs then
    let st1 := { st with lastTempMs := ms }
    match tC with
    | none => st1
    | some t =>
        if -40 < t ∧ t < 125 then
          { st1 with tempSumC := st1.tempSumC + t,
                     tempCount := st1.tempCount + 1,
                     tempMinC := if t < st1.tempMinC then t else st1.tempMinC,
                     tempMaxC := if st1.tempMaxC < t then t else st1.tempMaxC }
        else st1
  else st

/-- One completed-bucket record as computed at flush time (lines 457-473):
the bucket key plus the derived statistics.  `avgTempC = none` models the
`NAN` celsius argument passed to the uploader when `tempCount == 0`. -/
structure FlushOut where
  year : Int
  month : Int
  day : Int
  hour : Int
  minute : Int
  avgSPL : ℚ
  avgDBFS : ℚ
  maxSPL : ℚ
  avgTempC : Option ℚ
deriving DecidableEq, Repr

/-- The flush computation (lines 457-461 and 470-473) applied to the
accumulator state at the moment the rollover fires. -/
def flushValues (st : AggState) : FlushOut :=
  let avgSPL_1min : ℚ := if 0 < st.splCount then st.splSum / (st.splCount : ℚ) else 0
  let avgDBFS_1min : ℚ := if 0 < st.splCount then st.dbfsSum / (st.splCount : ℚ) else -120
  let maxSPL_1min : ℚ := if st.splMax < -900 then avgSPL_1min else st.splMax
  let avgTempC_1min : Option ℚ :=
    if 0 < st.tempCount then some (st.tempSumC / (st.tempCount : ℚ)) else none
  { year := st.bucketYear, month := st.bucketMonth, day := st.bucketDay,
    hour := st.bucketHour, minute := st.bucketMinute,
    avgSPL := avgSPL_1min, avgDBFS := avgDBFS_1min, maxSPL := maxSPL_1min,
    avgTempC := avgTempC_1min }

/-- The boolean disjunction of field inequalities that triggers the
rollover (lines 454-455). -/
def rolloverFires (now : DateTimeR) (st : AggState) : Prop :=
  now.minute ≠ st.bucketMinute ∨ now.hour ≠ st.bucketHour ∨
  now.day ≠ st.bucketDay ∨ now.month ≠ st.bucketMonth ∨ now.year ≠ st.bucketYear

instance (now : DateTimeR) (st : AggState) : Decidable (rolloverFires now st) := by
  unfold rolloverFires; infer_instance

/-- Rollover detection and flush (lines 454-490): when any calendar field
of `now` differs from the open bucket, emit the flush of the current
accumulator and reset it to `now`'s key with zeroed sums. -/
def rolloverPhase (now : DateTimeR) (st : AggState) : AggState × Option FlushOut :=
  if rolloverFires now st then (rollReset now st, some (flushValues st))
  else (st, none)

/-- Final accumulation of the iteration's loudness reading (lines 492-494);
`estSPL` was computed from the already-updated smoothing state. -/
def accumulatePhase (st : AggState) : AggState :=
  { st with splSum := st.splSum + estSPLOf st.dbfsSmooth,
            dbfsSum := st.dbfsSum + st.dbfsSmooth,
            splCount := st.splCount + 1 }

/-- Inputs consumed by one iteration of `loop()` (other than the radio
mailbox): the audio block delivered by `i2s_read` (`none` models a failed
or empty read, line 396), the RTC reading, `millis()` and the raw
thermistor ADC count. -/
structure LoopInput where
  audio : Option (List Int)
  now : DateTimeR
  ms : Nat
  thermRaw : Int

/-- One full pass of the aggregation part of `loop()` (lines 392-497),
composing the phases in source order.  Returns the new state and the
completed-bucket record emitted by this iteration, if any. -/
def aggStep (L : FloatLib) (inp : LoopInput) (st : AggState) :
    AggState × Option FlushOut :=
  match inp.audio with
  | none => (st, none)
  | some block =>
    let st1 := loudnessPhase L block st
    match alignPhase inp.now st1 with
    | none => (st1, none)
    | some st2 =>
      let st3 := tempPhase inp.ms (readThermistorC_legacyADC1 L inp.thermRaw) st2
      let (st4, rec) := rolloverPhase inp.now st3
      (accumulatePhase st4, rec)

/-- Run the aggregation loop over a list of inputs, collecting every
emitted completed-bucket record in order. -/
def aggRun (L : FloatLib) (inps : List LoopInput) (st : AggState) :
    AggState × List FlushOut :=
  match inps with
  | [] => (st, [])
  | i :: rest =>
    let s := aggStep L i st
    let r := aggRun L rest s.1
    (r.1, s.2.toList ++ r.2)

/-! ### The ESP-NOW relay mailbox (`onRecv`, lines 126-160, and the drain
at the top of `loop()`, lines 366-390).

Wire messages are modelled at the byte level: a payload is a list of byte
values, and the packed-struct `memcpy` reinterpretation is a little-endian
field decode.  The `float` fields carry no arithmetic on this path, so they
are kept as their raw 32-bit patterns (`Nat` below `2^32`); the `NAN`
assigned to `temp_c` for a V1 message is the quiet-NaN pattern. -/

/-- Decoded form of the packed wire struct `MinuteMsg` (lines 110-124);
`float` fields are raw 32-bit patterns. -/
structure MinuteMsg where
  node_id : Nat
  seq : Nat
  uptime_ms : Nat
  year : Nat
  month : Nat
  day : Nat
  hour : Nat
  minute : Nat
  avg_estSPL : Nat
  max_estSPL : Nat
  avg_dBFS : Nat
  n_samples : Nat
  temp_c : Nat
deriving DecidableEq, Repr

/-- Size `sizeof(MinuteMsg)` of the packed layout: 38 bytes. -/
def sizeofMinuteMsg : Nat := 38

/-- Size `sizeof(MinuteMsg_V1)` of the packed layout (no `temp_c`): 34 bytes. -/
def sizeofMinuteMsg_V1 : Nat := 34

/-- Bit pattern of the quiet `NAN` float constant. -/
def NAN_BITS : Nat := 0x7FC00000

/-- Byte `i` of a payload (`0` beyond the end, matching the
zero-initialised `MinuteMsg msg{}` the bytes are copied over). -/
def byteAt (bs : List Nat) (i : Nat) : Nat := bs.getD i 0

/-- Little-endian 16-bit field at offset `o`. -/
def rd2 (bs : List Nat) (o : Nat) : Nat := byteAt bs o + 256 * byteAt bs (o + 1)

/-- Little-endian 32-bit field at offset `o`. -/
def rd4 (bs : List Nat) (o : Nat) : Nat :=
  byteAt bs o + 256 * byteAt bs (o + 1) + 65536 * byteAt bs (o + 2) +
    16777216 * byteAt bs (o + 3)

/-- The `memcpy(&msg, incomingData, sizeof(MinuteMsg))` (line 146) as a field
decode of the 38-byte packed layout. -/
def decodeMinuteMsg (bs : List Nat) : MinuteMsg :=
  { node_id := rd4 bs 0, seq := rd4 bs 4, uptime_ms := rd4 bs 8,
    year := rd2 bs 12, month := byteAt bs 14, day := byteAt bs 15,
    hour := byteAt bs 16, minute := byteAt bs 17,
    avg_estSPL := rd4 bs 18, max_estSPL := rd4 bs 22, avg_dBFS := rd4 bs 26,
    n_samples := rd4 bs 30, temp_c := rd4 bs 34 }

/-- The `memcpy(&msg, incomingData, sizeof(MinuteMsg_V1)); msg.temp_c = NAN;`
(lines 149-150): the first 34 bytes share the layout of `MinuteMsg`. -/
def decodeMinuteMsg_V1 (bs : List Nat) : MinuteMsg :=
  { decodeMinuteMsg bs with temp_c := NAN_BITS }

/-- The single-slot holding cell shared between `onRecv` and `loop()`
(lines 127-128). -/
structure MailboxState where
  remotePending : Bool
  remoteLast : MinuteMsg
deriving DecidableEq, Repr

/-- The zero-initialised static `remoteLast` at boot. -/
def zeroMinuteMsg : MinuteMsg :=
  { node_id := 0, seq := 0, uptime_ms := 0, year := 0, month := 0, day := 0,
    hour := 0, minute := 0, avg_estSPL := 0, max_estSPL := 0, avg_dBFS := 0,
    n_samples := 0, temp_c := 0 }

/-- Mailbox state at boot: flag clear, cell zeroed. -/
def initMailbox : MailboxState :=
  { remotePending := false, remoteLast := zeroMinuteMsg }

/-- The ESP-NOW receive callback `onRecv` (lines 139-160).  The second
component collects the log lines the handler prints; the source handler
contains no logging call on any path, so it is `[]` throughout. -/
def onRecv (incomingData : List Nat) (len : Nat) (st : MailboxState) :
    MailboxState × List String :=
  if len = sizeofMinuteMsg then
    ({ remoteLast := decodeMinuteMsg incomingData, remotePending := true }, [])
  else if len = sizeofMinuteMsg_V1 then
    ({ remoteLast := decodeMinuteMsg_V1 incomingData, remotePending := true }, [])
  else (st, [])

/-- Fold a sequence of receptions (payload, length) into the mailbox with
no intervening drain, discarding log output. -/
def recvAll (msgs : List (List Nat × Nat)) (st : MailboxState) : MailboxState :=
  msgs.foldl (fun s m => (onRecv m.1 m.2 s).1) st

/-- The mailbox drain at the top of `loop()` (lines 368-390): if the flag
is set, copy the cell out, clear the flag, and forward the copied message
(to be uploaded).  Returns the forwarded message, if any. -/
def drainStep (st : MailboxState) : MailboxState × Option MinuteMsg :=
  if st.remotePending then ({ st with remotePending := false }, some st.remoteLast)
  else (st, none)

/-! ### The HTTPS uplink (`uploadToSupabase`, lines 198-247).

The JSON body the firmware concatenates is modelled as the ordered list of
its fields; numeric values keep their exact rational value (the `%.2f`
style rendering is irrelevant to the claims).  The HTTP transaction is an
environment parameter: whether WiFi is up, whether `http.begin` succeeds,
and the status code / response body of the single POST. -/

/-- One field of the JSON body: a numeric or a string member. -/
inductive JField where
  | num (name : String) (v : ℚ)
  | str (name : String) (v : String)
deriving DecidableEq, Repr

/-- The member name of a JSON field. -/
def JField.name : JField → String
  | .num n _ => n
  | .str n _ => n

/-- Left-pad a numeral string with zeros to width `w`. -/
def zfill (w : Nat) (s : String) : String :=
  String.mk (List.replicate (w - s.length) '0') ++ s

/-- Function `makeLocalIso8601` (lines 162-166): `%04d-%02d-%02dT%02d:%02d:%02d`
(for the in-range, non-negative values the firmware passes). -/
def makeLocalIso8601 (year month day hour minute second : Int) : String :=
  zfill 4 (toString year) ++ "-" ++ zfill 2 (toString month) ++ "-" ++
    zfill 2 (toString day) ++ "T" ++ zfill 2 (toString hour) ++ ":" ++
    zfill 2 (toString minute) ++ ":" ++ zfill 2 (toString second)

/-- The JSON body built at lines 212-225: seven unconditional members, and
`celsius` appended exactly when `!isnan(celsius)` (`celsius ≠ none`). -/
def supabaseBody (sensor_id : Int) (lat lon : ℚ) (location_name : String)
    (year month day hour minute second : Int) (average_db max_db : ℚ)
    (celsius : Option ℚ) : List JField :=
  [JField.num "sensor_id" sensor_id, JField.num "lat" lat,
   JField.num "lon" lon, JField.str "location_name" location_name,
   JField.str "ts_utc" (makeLocalIso8601 year month day hour minute second),
   JField.num "average_db" average_db, JField.num "max_db" max_db] ++
    (match celsius with
     | some c => [JField.num "celsius" c]
     | none => [])

/-- Environment of one upload attempt: WiFi link state, `http.begin`
success, and the response to the single POST. -/
structure UploadEnv where
  wifiConnected : Bool
  beginOk : Bool
  code : Int
  resp : String

/-- Result of `uploadToSupabase`: the returned `bool`, the body actually
POSTed (`none` when no request was made), and the failure log line. -/
structure UploadOutcome where
  ok : Bool
  posted : Option (List JField)
  logLine : Option String
deriving DecidableEq, Repr

/-- Function `logf` (lines 130-137) formats into `char buf[420]` with `vsnprintf`,
so a log line is truncated to at most 419 characters (the log lines here
are ASCII, so bytes coincide with characters). -/
def logfLine (s : String) : String := String.mk (s.data.take 419)

/-- Function `uploadToSupabase` (lines 198-247): early-out `false` when WiFi is
down (line 205) or `http.begin` fails (line 231); otherwise POST the body
once; success is `code == 201 || code == 204`; on failure log the code and
the response body through `logf`. -/
def uploadToSupabase (env : UploadEnv) (sensor_id : Int) (lat lon : ℚ)
    (location_name : String) (year month day hour minute second : Int)
    (average_db max_db : ℚ) (celsius : Option ℚ) : UploadOutcome :=
  if ¬env.wifiConnected then { ok := false, posted := none, logLine := none }
  else
    let body := supabaseBody sensor_id lat lon location_name
      year month day hour minute second average_db max_db celsius
    if ¬env.beginOk then { ok := false, posted := none, logLine := none }
    else
      let ok : Bool := env.code = 201 ∨ env.code = 204
      { ok := ok, posted := some body,
        logLine :=
          if ok then none
          else some (logfLine ("Supabase POST failed code=" ++ toString env.code ++
            " resp=" ++ env.resp ++ "\n")) }

/-- Which version (by payload length) decodes a reception, for stating the
mailbox fold property: a 38-byte payload decodes as `MinuteMsg`, a 34-byte
payload as `MinuteMsg_V1` with `temp_c = NAN`. -/
def decodeOf (m : List Nat × Nat) : MinuteMsg :=
  if m.2 = sizeofMinuteMsg then decodeMinuteMsg m.1 else decodeMinuteMsg_V1 m.1

/-! ### Reachability of aggregator states. -/

/-- States of the aggregator reachable from boot by some sequence of loop
iterations (with the library functions fixed to `L`). -/
inductive Reachable (L : FloatLib) : AggState → Prop where
  | init : Reachable L initState
  | step {st : AggState} (h : Reachable L st) (inp : LoopInput) :
      Reachable L (aggStep L inp st).1

/-! ### Concrete instantiations used by witnesses and counterexamples.

`idLib` fixes the abstracted library functions to simple computable
choices (any choice is a legitimate run of the embedded code, which never
inspects these functions beyond calling them): `sqrt := id`,
`log10 := const 0`, `ln := const 0`, and an ADC calibration returning
1650 mV (mid-scale). -/

def idLib : FloatLib :=
  { sqrt := fun q => q, log10 := fun _ => 0, ln := fun _ => 0,
    adcRawToVoltage := fun _ => 1650 }

/-- A silent audio block: one zero sample, `rms = 0 ≤ 1`. -/
def blkSilent : List Int := [0]

/-- A loud audio block: one sample `2^28`, so the shifted sample is `2^20`
and `rms = 2^40 > 1` under `idLib`. -/
def blkLoud : List Int := [268435456]

/-- Clock reading 2025-03-10 12:00:00. -/
def t120000 : DateTimeR := ⟨2025, 3, 10, 12, 0, 0⟩

/-- Clock reading 2025-03-10 12:00:30. -/
def t120030 : DateTimeR := ⟨2025, 3, 10, 12, 0, 30⟩

/-- Clock reading 2025-03-10 12:01:00. -/
def t120100 : DateTimeR := ⟨2025, 3, 10, 12, 1, 0⟩

/-- Clock reading 2025-03-10 12:02:00. -/
def t120200 : DateTimeR := ⟨2025, 3, 10, 12, 2, 0⟩

/-- Clock reading 2025-03-10 12:05:00. -/
def t120500 : DateTimeR := ⟨2025, 3, 10, 12, 5, 0⟩

/-- Loop input that aligns the aggregator at 12:00:00 (thermistor raw 0 is
saturated, so no temperature accumulates). -/
def inAlign : LoopInput := ⟨some blkSilent, t120000, 0, 0⟩

/-- The bucket-key projection of a record, for stating which buckets were
emitted. -/
def FlushOut.key (r : FlushOut) : BucketKey :=
  ⟨r.year, r.month, r.day, r.hour, r.minute⟩

/-- Stall scenario input trace: align at 12:00:00, sample at 12:00:30,
then the clock jumps straight to 12:05:00. -/
def stallInputs : List LoopInput :=
  [inAlign, ⟨some blkSilent, t120030, 30000, 0⟩,
   ⟨some blkSilent, t120500, 300000, 0⟩]

/-- Two-iteration trace whose second (rollover) iteration carries a loud
block. -/
def runRollLoud : List LoopInput := [inAlign, ⟨some blkLoud, t120100, 60000, 0⟩]

/-- The same trace with a silent block in the rollover iteration; the two
traces are identical up to and including every sample inside the 12:00
bucket. -/
def runRollSilent : List LoopInput := [inAlign, ⟨some blkSilent, t120100, 60000, 0⟩]

/-- Trace with a loud block during the UNALIGNED phase (12:00:30), then
alignment at 12:01:00 and rollover at 12:02:00. -/
def runPreLoud : List LoopInput :=
  [⟨some blkLoud, t120030, 0, 0⟩, ⟨some blkSilent, t120100, 60000, 0⟩,
   ⟨some blkSilent, t120200, 120000, 0⟩]

/-- The same trace with a silent block during the UNALIGNED phase; both
traces agree on every input from alignment onwards. -/
def runPreSilent : List LoopInput :=
  [⟨some blkSilent, t120030, 0, 0⟩, ⟨some blkSilent, t120100, 60000, 0⟩,
   ⟨some blkSilent, t120200, 120000, 0⟩]

/-- A 300-character HTTP response body. -/
def resp300 : String := String.mk (List.replicate 300 'a')

/-- Upload environment: WiFi up, `http.begin` succeeds, POST answered with
status 400 and a 300-character response body. -/
def envFail400 : UploadEnv :=
  { wifiConnected := true, beginOk := true, code := 400, resp := resp300 }

/-! ## Helper lemmas -/

theorem loudnessPhase_dbfsSmooth (L : FloatLib) (b : List Int) (st : AggState) :
    (loudnessPhase L b st).dbfsSmooth = (1 - ALPHA) * st.dbfsSmooth + ALPHA * blockDbfs L b :=
  rfl

theorem loudnessPhase_preserves (L : FloatLib) (b : List Int) (st : AggState) :
    (loudnessPhase L b st).minuteAligned = st.minuteAligned ∧
    (loudnessPhase L b st).bucketKey = st.bucketKey ∧
    (loudnessPhase L b st).splSum = st.splSum ∧
    (loudnessPhase L b st).dbfsSum = st.dbfsSum ∧
    (loudnessPhase L b st).splCount = st.splCount ∧
    (loudnessPhase L b st).tempSumC = st.tempSumC ∧
    (loudnessPhase L b st).tempCount = st.tempCount :=
  ⟨rfl, rfl, rfl, rfl, rfl, rfl, rfl⟩

theorem tempPhase_preserves (ms : Nat) (tc : Option ℚ) (st : AggState) :
    (tempPhase ms tc st).dbfsSmooth = st.dbfsSmooth ∧
    (tempPhase ms tc st).minuteAligned = st.minuteAligned ∧
    (tempPhase ms tc st).bucketKey = st.bucketKey ∧
    (tempPhase ms tc st).splSum = st.splSum ∧
    (tempPhase ms tc st).dbfsSum = st.dbfsSum ∧
    (tempPhase ms tc st).splCount = st.splCount ∧
    (tempPhase ms tc st).splMax = st.splMax := by
  unfold tempPhase
  by_cases hp : TEMP_SAMPLE_PERIOD_MS ≤ elapsed32 ms st.lastTempMs
  · cases tc with
    | none => simp [hp, AggState.bucketKey]
    | some t => by_cases hv : -40 < t ∧ t < 125 <;> simp [hp, hv, AggState.bucketKey]
  · simp [hp]

theorem tempPhase_none_tempFields (ms : Nat) (st : AggState) :
    (tempPhase ms none st).tempSumC = st.tempSumC ∧
    (tempPhase ms none st).tempCount = st.tempCount := by
  unfold tempPhase
  by_cases hp : TEMP_SAMPLE_PERIOD_MS ≤ elapsed32 ms st.lastTempMs <;> simp [hp]

theorem tempPhase_invalid_tempFields (ms : Nat) (t : ℚ) (st : AggState)
    (h : t ≤ -40 ∨ 125 ≤ t) :
    (tempPhase ms (some t) st).tempSumC = st.tempSumC ∧
    (tempPhase ms (some t) st).tempCount = st.tempCount := by
  have hv : ¬(-40 < t ∧ t < 125) := by
    rcases h with h | h
    · exact fun hc => absurd hc.1 (not_lt.mpr h)
    · exact fun hc => absurd hc.2 (not_lt.mpr h)
  unfold tempPhase
  by_cases hp : TEMP_SAMPLE_PERIOD_MS ≤ elapsed32 ms st.lastTempMs <;> simp [hp, hv]

theorem accumulatePhase_fields (st : AggState) :
    (accumulatePhase st).minuteAligned = st.minuteAligned ∧
    (accumulatePhase st).bucketKey = st.bucketKey ∧
    (accumulatePhase st).dbfsSmooth = st.dbfsSmooth ∧
    (accumulatePhase st).splCount = st.splCount + 1 :=
  ⟨rfl, rfl, rfl, rfl⟩

theorem rollReset_fields (now : DateTimeR) (st : AggState) :
    (rollReset now st).bucketKey = now.key ∧
    (rollReset now st).minuteAligned = st.minuteAligned ∧
    (rollReset now st).dbfsSmooth = st.dbfsSmooth ∧
    (rollReset now st).splSum = 0 ∧ (rollReset now st).dbfsSum = 0 ∧
    (rollReset now st).splCount = 0 ∧ (rollReset now st).splMax = -999 ∧
    (rollReset now st).tempSumC = 0 ∧ (rollReset now st).tempCount = 0 :=
  ⟨rfl, rfl, rfl, rfl, rfl, rfl, rfl, rfl, rfl⟩

theorem rolloverFires_iff (now : DateTimeR) (st : AggState) :
    rolloverFires now st ↔ now.key ≠ st.bucketKey := by
  unfold rolloverFires DateTimeR.key AggState.bucketKey
  simp only [ne_eq, BucketKey.mk.injEq, not_and]
  tauto

theorem rolloverFires_of_bucketKey {st st' : AggState} (now : DateTimeR)
    (h : st.bucketKey = st'.bucketKey) :
    rolloverFires now st ↔ rolloverFires now st' := by
  rw [rolloverFires_iff, rolloverFires_iff, h]

theorem rolloverPhase_not_fires (now : DateTimeR) (st : AggState)
    (h : ¬rolloverFires now st) : rolloverPhase now st = (st, none) := by
  simp [rolloverPhase, h]

theorem rolloverPhase_fires (now : DateTimeR) (st : AggState)
    (h : rolloverFires now st) :
    rolloverPhase now st = (rollReset now st, some (flushValues st)) := by
  simp [rolloverPhase, h]

theorem alignPhase_of_aligned (now : DateTimeR) (st : AggState)
    (h : st.minuteAligned = true) : alignPhase now st = some st := by
  simp [alignPhase, h]

theorem alignPhase_stays_unaligned (now : DateTimeR) (st : AggState)
    (h : st.minuteAligned = false) (h2 : now.second ≠ 0) :
    alignPhase now st = none := by
  simp [alignPhase, h, h2]

theorem alignPhase_aligns (now : DateTimeR) (st : AggState)
    (h : st.minuteAligned = false) (h2 : now.second = 0) :
    alignPhase now st = some { rollReset now st with minuteAligned := true } := by
  simp [alignPhase, h, h2]

theorem aggStep_noAudio (L : FloatLib) (inp : LoopInput) (st : AggState)
    (h : inp.audio = none) : aggStep L inp st = (st, none) := by
  simp [aggStep, h]

theorem aggStep_via_align (L : FloatLib) (inp : LoopInput) (st : AggState)
    (b : List Int) (st2 : AggState) (hau : inp.audio = some b)
    (ha : alignPhase inp.now (loudnessPhase L b st) = some st2) :
    aggStep L inp st =
      (accumulatePhase (rolloverPhase inp.now
          (tempPhase inp.ms (readThermistorC_legacyADC1 L inp.thermRaw) st2)).1,
       (rolloverPhase inp.now
          (tempPhase inp.ms (readThermistorC_legacyADC1 L inp.thermRaw) st2)).2) := by
  obtain ⟨au, now, ms, raw⟩ := inp
  cases hau
  unfold aggStep
  dsimp only
  dsimp only at ha
  rw [ha]

theorem rolloverPhase_key_eq (now : DateTimeR) (ms : Nat) (tc : Option ℚ)
    (st2 : AggState) (hk : st2.bucketKey = now.key) :
    rolloverPhase now (tempPhase ms tc st2) = (tempPhase ms tc st2, none) :=
  rolloverPhase_not_fires _ _
    (by rw [rolloverFires_iff, (tempPhase_preserves ms tc st2).2.2.1, hk]; simp)

theorem aggStep_aligned_eq (L : FloatLib) (inp : LoopInput) (st : AggState)
    (b : List Int) (hau : inp.audio = some b) (h : st.minuteAligned = true) :
    aggStep L inp st =
      (accumulatePhase (rolloverPhase inp.now
          (tempPhase inp.ms (readThermistorC_legacyADC1 L inp.thermRaw)
            (loudnessPhase L b st))).1,
       (rolloverPhase inp.now
          (tempPhase inp.ms (readThermistorC_legacyADC1 L inp.thermRaw)
            (loudnessPhase L b st))).2) :=
  aggStep_via_align L inp st b _ hau
    (alignPhase_of_aligned _ _ (show (loudnessPhase L b st).minuteAligned = true from h))

theorem aggStep_unaligned_skip (L : FloatLib) (inp : LoopInput) (st : AggState)
    (b : List Int) (hau : inp.audio = some b) (h : st.minuteAligned = false)
    (h2 : inp.now.second ≠ 0) :
    aggStep L inp st = (loudnessPhase L b st, none) := by
  obtain ⟨au, now, ms, raw⟩ := inp
  cases hau
  unfold aggStep
  dsimp only
  rw [alignPhase_stays_unaligned _ _ (show (loudnessPhase L b st).minuteAligned = false from h) h2]

theorem aggStep_unaligned_aligns (L : FloatLib) (inp : LoopInput) (st : AggState)
    (b : List Int) (hau : inp.audio = some b) (h : st.minuteAligned = false)
    (h2 : inp.now.second = 0) :
    aggStep L inp st =
      (accumulatePhase (tempPhase inp.ms (readThermistorC_legacyADC1 L inp.thermRaw)
          { rollReset inp.now (loudnessPhase L b st) with minuteAligned := true }),
       none) := by
  rw [aggStep_via_align L inp st b _ hau
    (alignPhase_aligns _ _ (show (loudnessPhase L b st).minuteAligned = false from h) h2)]
  rw [rolloverPhase_key_eq inp.now inp.ms (readThermistorC_legacyADC1 L inp.thermRaw)
    { rollReset inp.now (loudnessPhase L b st) with minuteAligned := true } (by rfl)]

theorem rolloverPhase_fst_minuteAligned (now : DateTimeR) (st : AggState) :
    (rolloverPhase now st).1.minuteAligned = st.minuteAligned := by
  unfold rolloverPhase
  split <;> rfl

theorem rolloverPhase_fst_dbfsSmooth (now : DateTimeR) (st : AggState) :
    (rolloverPhase now st).1.dbfsSmooth = st.dbfsSmooth := by
  unfold rolloverPhase
  split <;> rfl

theorem rolloverPhase_fst_bucketKey (now : DateTimeR) (st : AggState) :
    (rolloverPhase now st).1.bucketKey = now.key := by
  unfold rolloverPhase
  split
  case isTrue h => exact (rollReset_fields now st).1
  case isFalse h =>
    rw [rolloverFires_iff] at h
    exact (not_ne_iff.mp h).symm

theorem one_le_accumulate_count (st : AggState) : 1 ≤ (accumulatePhase st).splCount :=
  Nat.succ_le_succ (Nat.zero_le _)

theorem aggStep_unaligned_none (L : FloatLib) (inp : LoopInput) (st : AggState)
    (h : st.minuteAligned = false) : (aggStep L inp st).2 = none := by
  cases hau : inp.audio with
  | none => rw [aggStep_noAudio L inp st hau]
  | some b =>
    by_cases h2 : inp.now.second = 0
    · rw [aggStep_unaligned_aligns L inp st b hau h h2]
    · rw [aggStep_unaligned_skip L inp st b hau h h2]

theorem aggStep_emit_eq (L : FloatLib) (inp : LoopInput) (st : AggState)
    (b : List Int) (hau : inp.audio = some b) (h : st.minuteAligned = true) :
    (aggStep L inp st).2 =
      if rolloverFires inp.now st then
        some (flushValues (tempPhase inp.ms (readThermistorC_legacyADC1 L inp.thermRaw)
          (loudnessPhase L b st)))
      else none := by
  rw [aggStep_aligned_eq L inp st b hau h]
  have hk : (tempPhase inp.ms (readThermistorC_legacyADC1 L inp.thermRaw)
      (loudnessPhase L b st)).bucketKey = st.bucketKey := by
    rw [(tempPhase_preserves _ _ _).2.2.1, (loudnessPhase_preserves L b st).2.1]
  by_cases hf : rolloverFires inp.now st
  · rw [rolloverPhase_fires _ _ ((rolloverFires_of_bucketKey inp.now hk).mpr hf), if_pos hf]
  · rw [rolloverPhase_not_fires _ _ (fun hc => hf ((rolloverFires_of_bucketKey inp.now hk).mp hc)),
        if_neg hf]

theorem aggStep_emits_aligned_pre (L : FloatLib) (inp : LoopInput) (st : AggState)
    (r : FlushOut) (he : (aggStep L inp st).2 = some r) : st.minuteAligned = true := by
  by_contra hc
  rw [aggStep_unaligned_none L inp st (Bool.not_eq_true _ ▸ hc)] at he
  exact Option.noConfusion he

theorem aggStep_emits_audio (L : FloatLib) (inp : LoopInput) (st : AggState)
    (r : FlushOut) (he : (aggStep L inp st).2 = some r) : ∃ b, inp.audio = some b := by
  cases hau : inp.audio with
  | none =>
    rw [aggStep_noAudio L inp st hau] at he
    exact Option.noConfusion he
  | some b => exact ⟨b, rfl⟩

theorem aggStep_emit_record (L : FloatLib) (inp : LoopInput) (st : AggState)
    (b : List Int) (r : FlushOut) (hau : inp.audio = some b)
    (h : st.minuteAligned = true) (he : (aggStep L inp st).2 = some r) :
    rolloverFires inp.now st ∧
    r = flushValues (tempPhase inp.ms (readThermistorC_legacyADC1 L inp.thermRaw)
      (loudnessPhase L b st)) := by
  rw [aggStep_emit_eq L inp st b hau h] at he
  by_cases hf : rolloverFires inp.now st
  · rw [if_pos hf] at he
    exact ⟨hf, (Option.some.inj he).symm⟩
  · rw [if_neg hf] at he
    exact Option.noConfusion he

theorem aggStep_post_aligned (L : FloatLib) (inp : LoopInput) (st : AggState)
    (h : st.minuteAligned = true) : (aggStep L inp st).1.minuteAligned = true := by
  cases hau : inp.audio with
  | none => rw [aggStep_noAudio L inp st hau]; exact h
  | some b =>
    rw [aggStep_aligned_eq L inp st b hau h]
    dsimp only
    rw [(accumulatePhase_fields _).1, rolloverPhase_fst_minuteAligned,
        (tempPhase_preserves _ _ _).2.1, (loudnessPhase_preserves L b st).1]
    exact h

theorem aggStep_post_bucketKey (L : FloatLib) (inp : LoopInput) (st : AggState)
    (b : List Int) (hau : inp.audio = some b) (h : st.minuteAligned = true) :
    (aggStep L inp st).1.bucketKey = inp.now.key := by
  rw [aggStep_aligned_eq L inp st b hau h]
  dsimp only
  rw [(accumulatePhase_fields _).2.1, rolloverPhase_fst_bucketKey]

theorem reachable_aligned_count (L : FloatLib) {st : AggState} (h : Reachable L st) :
    st.minuteAligned = true → 1 ≤ st.splCount := by
  induction h with
  | init => intro ha; simp [initState] at ha
  | step hr inp ih =>
    rename_i st0
    intro ha
    cases hau : inp.audio with
    | none =>
      rw [aggStep_noAudio L inp st0 hau] at ha ⊢
      exact ih ha
    | some b =>
      by_cases h0 : st0.minuteAligned = true
      · rw [aggStep_aligned_eq L inp st0 b hau h0]
        exact one_le_accumulate_count _
      · have h0f : st0.minuteAligned = false := Bool.not_eq_true _ ▸ h0
        by_cases h2 : inp.now.second = 0
        · rw [aggStep_unaligned_aligns L inp st0 b hau h0f h2]
          exact one_le_accumulate_count _
        · rw [aggStep_unaligned_skip L inp st0 b hau h0f h2] at ha
          exact absurd ((loudnessPhase_preserves L b st0).1 ▸ ha) (by simp [h0f])

theorem flushValues_fields (st : AggState) :
    (flushValues st).avgSPL =
      (if 0 < st.splCount then st.splSum / (st.splCount : ℚ) else 0) ∧
    (flushValues st).avgDBFS =
      (if 0 < st.splCount then st.dbfsSum / (st.splCount : ℚ) else -120) ∧
    (flushValues st).maxSPL =
      (if st.splMax < -900 then
        (if 0 < st.splCount then st.splSum / (st.splCount : ℚ) else 0)
       else st.splMax) ∧
    (flushValues st).avgTempC =
      (if 0 < st.tempCount then some (st.tempSumC / (st.tempCount : ℚ)) else none) ∧
    (flushValues st).key = st.bucketKey :=
  ⟨rfl, rfl, rfl, rfl, rfl⟩

theorem loudnessPhase_splMax (L : FloatLib) (b : List Int) (st : AggState) :
    (loudnessPhase L b st).splMax =
      (if st.splMax < estSPLOf ((1 - ALPHA) * st.dbfsSmooth + ALPHA * blockDbfs L b)
       then estSPLOf ((1 - ALPHA) * st.dbfsSmooth + ALPHA * blockDbfs L b)
       else st.splMax) :=
  rfl

theorem aggStep_post_dbfsSmooth (L : FloatLib) (inp : LoopInput) (st : AggState)
    (b : List Int) (hau : inp.audio = some b) :
    (aggStep L inp st).1.dbfsSmooth = (loudnessPhase L b st).dbfsSmooth := by
  by_cases h : st.minuteAligned = true
  · rw [aggStep_aligned_eq L inp st b hau h]
    dsimp only
    rw [(accumulatePhase_fields _).2.2.1, rolloverPhase_fst_dbfsSmooth,
        (tempPhase_preserves _ _ _).1]
  · have hf : st.minuteAligned = false := Bool.not_eq_true _ ▸ h
    by_cases h2 : inp.now.second = 0
    · rw [aggStep_unaligned_aligns L inp st b hau hf h2]
      dsimp only
      rw [(accumulatePhase_fields _).2.2.1, (tempPhase_preserves _ _ _).1]
      rfl
    · rw [aggStep_unaligned_skip L inp st b hau hf h2]

theorem recvAll_valid (msgs : List (List Nat × Nat)) (st : MailboxState)
    (hne : msgs ≠ [])
    (hv : ∀ m ∈ msgs, m.2 = sizeofMinuteMsg ∨ m.2 = sizeofMinuteMsg_V1) :
    (recvAll msgs st).remotePending = true ∧
    (recvAll msgs st).remoteLast = decodeOf (msgs.getLast hne) := by
  induction msgs generalizing st with
  | nil => exact absurd rfl hne
  | cons m rest ih =>
    cases rest with
    | nil =>
      rcases hv m (by simp) with h | h <;>
        simp [recvAll, onRecv, decodeOf, h, sizeofMinuteMsg, sizeofMinuteMsg_V1,
          List.getLast]
    | cons m2 rest2 =>
      have hstep : recvAll (m :: m2 :: rest2) st =
          recvAll (m2 :: rest2) (onRecv m.1 m.2 st).1 := rfl
      have hgl : (m :: m2 :: rest2).getLast hne =
          (m2 :: rest2).getLast (by simp) := List.getLast_cons _
      rw [hstep, hgl]
      exact ih (onRecv m.1 m.2 st).1 (by simp) fun x hx => hv x (by simp [hx])

theorem shift8_zero : shift8 0 = 0 := by decide

theorem shift8_loud : shift8 268435456 = 1048576 := by decide

theorem logfLine_of_le (s : String) (h : s.length ≤ 419) : logfLine s = s := by
  unfold logfLine
  rw [List.take_of_length_le h]

theorem stA_aligned : (aggStep idLib inAlign initState).1.minuteAligned = true := by
  rw [aggStep_unaligned_aligns idLib inAlign initState blkSilent rfl rfl rfl]
  dsimp only
  rw [(accumulatePhase_fields _).1, (tempPhase_preserves _ _ _).2.1]

theorem stA_bucketKey : (aggStep idLib inAlign initState).1.bucketKey = t120000.key := by
  rw [aggStep_unaligned_aligns idLib inAlign initState blkSilent rfl rfl rfl]
  dsimp only
  rw [(accumulatePhase_fields _).2.1, (tempPhase_preserves _ _ _).2.2.1]
  rfl

theorem readTherm_zero : readThermistorC_legacyADC1 idLib 0 = none := rfl

theorem stA_tempCount : (aggStep idLib inAlign initState).1.tempCount = 0 := by
  rw [aggStep_unaligned_aligns idLib inAlign initState blkSilent rfl rfl rfl]
  have hr : readThermistorC_legacyADC1 idLib inAlign.thermRaw = none := readTherm_zero
  dsimp only
  show (tempPhase inAlign.ms (readThermistorC_legacyADC1 idLib inAlign.thermRaw)
    { rollReset inAlign.now (loudnessPhase idLib blkSilent initState) with
      minuteAligned := true }).tempCount = 0
  rw [hr, (tempPhase_none_tempFields _ _).2]
  rfl

/-! ## Claim theorems -/

/-- C1 (counterexample): the claim says every field of an emitted record —
including the maximum SPL — reflects only samples observed strictly
between the previous and the current BucketKey transition.  The two
concrete runs below are identical on every input up to and including the
whole 12:00 bucket and differ only in the audio block of the rollover
iteration itself (the iteration whose clock reading 12:01:00 is the
current transition): the emitted `avg` agrees, but the emitted `max`
differs, because line 414 updates `splMax` with the rollover iteration's
own `estSPL` before the flush at lines 454-473. -/
theorem C1_counterexample :
    (aggRun idLib runRollLoud initState).2.map FlushOut.avgSPL =
      (aggRun idLib runRollSilent initState).2.map FlushOut.avgSPL ∧
    (aggRun idLib runRollLoud initState).2.map FlushOut.maxSPL ≠
      (aggRun idLib runRollSilent initState).2.map FlushOut.maxSPL := by
  norm_num [aggRun, aggStep, loudnessPhase, alignPhase, tempPhase, rolloverPhase,
    accumulatePhase, rollReset, rolloverFires, blockDbfs, blockRms, sumSq,
    shift8_zero, shift8_loud, estSPLOf, readThermistorC_legacyADC1, elapsed32,
    initState, idLib, blkSilent, blkLoud, t120000, t120100, inAlign, runRollLoud,
    runRollSilent, ALPHA, CAL_OFFSET_DB, FULL_SCALE_24, TEMP_SAMPLE_PERIOD_MS, VCC,
    flushValues, FlushOut.key, DateTimeR.key, AggState.bucketKey]

/-- C1 (amended): in an aligned state, one loop iteration emits a record
precisely when the clock's BucketKey differs from the open bucket (hence
at most one record per observed transition), and on a clock jump across
several minutes exactly one record is emitted, for the previously open
bucket, with none for the skipped minutes.  The emitted record's `avgSPL`,
`avgDBFS` and bucket key come from the accumulator exactly as it stood at
the start of the iteration (the rollover iteration's own loudness sample
is excluded — it is accumulated into the next bucket at lines 492-494),
but `maxSPL` incorporates the rollover iteration's own `estSPL` (line 414
runs before the flush) and the temperature average incorporates the
temperature sample taken in the rollover iteration (lines 443-452 run
before the flush). -/
theorem C1_amended_per_transition (L : FloatLib) (st : AggState)
    (inp : LoopInput) (b : List Int) (r : FlushOut)
    (hau : inp.audio = some b) (hA : st.minuteAligned = true) :
    ((aggStep L inp st).2 ≠ none ↔ inp.now.key ≠ st.bucketKey) ∧
    ((aggStep L inp st).2 = some r →
      r.key = st.bucketKey ∧
      r.avgSPL = (if 0 < st.splCount then st.splSum / (st.splCount : ℚ) else 0) ∧
      r.avgDBFS = (if 0 < st.splCount then st.dbfsSum / (st.splCount : ℚ) else -120) ∧
      r.maxSPL =
        (if (if st.splMax < estSPLOf ((1 - ALPHA) * st.dbfsSmooth + ALPHA * blockDbfs L b)
             then estSPLOf ((1 - ALPHA) * st.dbfsSmooth + ALPHA * blockDbfs L b)
             else st.splMax) < -900
         then (if 0 < st.splCount then st.splSum / (st.splCount : ℚ) else 0)
         else (if st.splMax < estSPLOf ((1 - ALPHA) * st.dbfsSmooth + ALPHA * blockDbfs L b)
               then estSPLOf ((1 - ALPHA) * st.dbfsSmooth + ALPHA * blockDbfs L b)
               else st.splMax)) ∧
      r.avgTempC =
        (if 0 < (tempPhase inp.ms (readThermistorC_legacyADC1 L inp.thermRaw)
              (loudnessPhase L b st)).tempCount
         then some ((tempPhase inp.ms (readThermistorC_legacyADC1 L inp.thermRaw)
              (loudnessPhase L b st)).tempSumC /
            ((tempPhase inp.ms (readThermistorC_legacyADC1 L inp.thermRaw)
              (loudnessPhase L b st)).tempCount : ℚ))
         else none)) ∧
    (aggRun idLib stallInputs initState).2.map FlushOut.key =
      [⟨2025, 3, 10, 12, 0⟩] := by
  obtain ⟨tP1, tP2, tP3, tP4, tP5, tP6, tP7⟩ :=
    tempPhase_preserves inp.ms (readThermistorC_legacyADC1 L inp.thermRaw)
      (loudnessPhase L b st)
  obtain ⟨lP1, lP2, lP3, lP4, lP5, lP6, lP7⟩ := loudnessPhase_preserves L b st
  refine ⟨?_, fun he => ?_, by
    norm_num [aggRun, aggStep, loudnessPhase, alignPhase, tempPhase, rolloverPhase,
      accumulatePhase, rollReset, rolloverFires, blockDbfs, blockRms, sumSq,
      shift8_zero, estSPLOf, readThermistorC_legacyADC1, elapsed32, initState,
      idLib, blkSilent, t120000, t120030, t120500, inAlign, stallInputs, ALPHA,
      CAL_OFFSET_DB, FULL_SCALE_24, TEMP_SAMPLE_PERIOD_MS, VCC, flushValues,
      FlushOut.key, DateTimeR.key, AggState.bucketKey]⟩
  · rw [aggStep_emit_eq L inp st b hau hA, ← rolloverFires_iff]
    by_cases hf : rolloverFires inp.now st
    · simp [hf]
    · simp [hf]
  · obtain ⟨hf, hr⟩ := aggStep_emit_record L inp st b r hau hA he
    subst hr
    obtain ⟨fF1, fF2, fF3, fF4, fF5⟩ :=
      flushValues_fields (tempPhase inp.ms (readThermistorC_legacyADC1 L inp.thermRaw)
        (loudnessPhase L b st))
    refine ⟨?_, ?_, ?_, ?_, rfl⟩
    · rw [fF5, tP3, lP2]
    · rw [fF1, tP6, lP5, tP4, lP3]
    · rw [fF2, tP6, lP5, tP5, lP4]
    · rw [fF3, tP7, loudnessPhase_splMax, tP6, lP5, tP4, lP3]

/-- C2: for every bucket flush, a positive accumulated loudness count `N`
produces `avgSplDb = splSum / N` and `avgDbfs = dbfsSum / N` (exact
division in the idealised rational arithmetic — no NaN), and a flush of an
accumulator holding zero accumulated loudness samples (count `0` with
`splMax` still at its reset sentinel `-999`, which is how every
freshly-reset accumulator looks, lines 427-435/481-489) performs no
division and produces the defined sentinel values `avgSplDb = 0`,
`avgDbfs = -120`, and `maxSplDb` falling back to `avgSplDb`. -/
theorem C2_flush_division_and_zero_sentinel (st : AggState) :
    (0 < st.splCount →
      (flushValues st).avgSPL = st.splSum / (st.splCount : ℚ) ∧
      (flushValues st).avgDBFS = st.dbfsSum / (st.splCount : ℚ)) ∧
    (st.splCount = 0 → st.splMax = -999 →
      (flushValues st).avgSPL = 0 ∧ (flushValues st).avgDBFS = -120 ∧
      (flushValues st).maxSPL = (flushValues st).avgSPL) := by
  obtain ⟨f1, f2, f3, f4, f5⟩ := flushValues_fields st
  refine ⟨fun h => ?_, fun h0 hm => ?_⟩
  · rw [f1, f2, if_pos h, if_pos h]
    exact ⟨rfl, rfl⟩
  · have hn : ¬0 < st.splCount := by omega
    refine ⟨?_, ?_, ?_⟩
    · rw [f1, if_neg hn]
    · rw [f2, if_neg hn]
    · rw [f3, f1, hm, if_pos (by norm_num)]

/-- C2 witness: a flush of an accumulator holding two samples summing to
10 averages them; a flush of the freshly-reset boot accumulator produces
the zero sentinel. -/
theorem C2_witness :
    0 < ({ initState with splCount := 2, splSum := 10 } : AggState).splCount ∧
    (flushValues { initState with splCount := 2, splSum := 10 }).avgSPL =
      ({ initState with splCount := 2, splSum := 10 } : AggState).splSum /
        (({ initState with splCount := 2, splSum := 10 } : AggState).splCount : ℚ) ∧
    (flushValues initState).avgSPL = 0 ∧
    (flushValues initState).maxSPL = (flushValues initState).avgSPL := by
  refine ⟨by norm_num, ?_, ?_, ?_⟩
  · exact ((C2_flush_division_and_zero_sentinel _).1 (by norm_num)).1
  · exact ((C2_flush_division_and_zero_sentinel initState).2 rfl rfl).1
  · exact ((C2_flush_division_and_zero_sentinel initState).2 rfl rfl).2.2

/-- C3: for every audio block, `rms` is the (abstracted) square root of
the mean of the squared (`>> 8`-shifted) samples; the dBFS value is
exactly the rational `-120` whenever `rms ≤ 1` and is
`20 * log10(rms / fullScale)` whenever `rms > 1`; the smoothing state
after the update is exactly `0.85·previous + 0.15·instant`; and the
smoothing state is not reset at bucket boundaries — across a full loop
iteration (rollover or not) it is exactly the smoothed value of the
iteration's block. -/
theorem C3_loudness_estimator (L : FloatLib) (block : List Int)
    (st : AggState) (inp : LoopInput) (hau : inp.audio = some block) :
    blockRms L block = L.sqrt (sumSq block / (block.length : ℚ)) ∧
    (blockRms L block ≤ 1 → blockDbfs L block = -120) ∧
    (1 < blockRms L block →
      blockDbfs L block = 20 * L.log10 (blockRms L block / FULL_SCALE_24)) ∧
    (loudnessPhase L block st).dbfsSmooth =
      (85 / 100 : ℚ) * st.dbfsSmooth + (15 / 100 : ℚ) * blockDbfs L block ∧
    (aggStep L inp st).1.dbfsSmooth =
      (85 / 100 : ℚ) * st.dbfsSmooth + (15 / 100 : ℚ) * blockDbfs L block := by
  have hsm : (loudnessPhase L block st).dbfsSmooth =
      (85 / 100 : ℚ) * st.dbfsSmooth + (15 / 100 : ℚ) * blockDbfs L block := by
    rw [loudnessPhase_dbfsSmooth]
    unfold ALPHA
    ring
  refine ⟨rfl, fun h => ?_, fun h => ?_, hsm, ?_⟩
  · rw [blockDbfs, if_neg (not_lt.mpr h)]
  · rw [blockDbfs, if_pos h]
  · rw [aggStep_post_dbfsSmooth L inp st block hau, hsm]

/-- C3 witness: on the silent one-sample block the rms is `0 ≤ 1`, the
dBFS floor `-120` is taken, and across the aligning loop iteration the
smoothing state is exactly `0.85·(-90) + 0.15·(-120)`. -/
theorem C3_witness :
    blockRms idLib blkSilent ≤ 1 ∧
    blockDbfs idLib blkSilent = -120 ∧
    (aggStep idLib inAlign initState).1.dbfsSmooth =
      (85 / 100 : ℚ) * initState.dbfsSmooth +
        (15 / 100 : ℚ) * blockDbfs idLib blkSilent := by
  have hle : blockRms idLib blkSilent ≤ 1 := by
    norm_num [blockRms, sumSq, blkSilent, idLib, shift8_zero]
  have h := C3_loudness_estimator idLib blkSilent initState inAlign rfl
  exact ⟨hle, h.2.1 hle, h.2.2.2.2⟩

/-- C1 witness: instantiating the amended per-transition theorem on the
state reached after aligning at 12:00:00 and a rollover input at 12:01:00:
the step emits a record, and the stall trace yields exactly the 12:00
bucket. -/
theorem C1_witness :
    (aggStep idLib ⟨some blkLoud, t120100, 60000, 0⟩
        (aggStep idLib inAlign initState).1).2 ≠ none ∧
    (aggRun idLib stallInputs initState).2.map FlushOut.key =
      [⟨2025, 3, 10, 12, 0⟩] := by
  have hstep := aggStep_unaligned_aligns idLib inAlign initState blkSilent rfl rfl rfl
  have hA : (aggStep idLib inAlign initState).1.minuteAligned = true := by
    rw [hstep]
    dsimp only
    rw [(accumulatePhase_fields _).1, (tempPhase_preserves _ _ _).2.1]
  have hkeyEq : (aggStep idLib inAlign initState).1.bucketKey = t120000.key := by
    rw [hstep]
    dsimp only
    rw [(accumulatePhase_fields _).2.1, (tempPhase_preserves _ _ _).2.2.1]
    rfl
  have h := C1_amended_per_transition idLib (aggStep idLib inAlign initState).1
    ⟨some blkLoud, t120100, 60000, 0⟩ blkLoud (flushValues initState) rfl hA
  refine ⟨h.1.mpr ?_, h.2.2⟩
  rw [hkeyEq]
  decide

/-- C4 (counterexample): the claim says no LoudnessReading observed while
UNALIGNED contributes to any emitted record.  The two runs below are
identical on every input from the alignment at 12:01:00 onwards and differ
only in the audio block of an UNALIGNED iteration (12:00:30); they emit
records for the same bucket but with different averages — the unaligned
block changed `dbfs_smooth` (line 411 runs before the alignment check) and
the smoothing state is never reset, so the unaligned reading leaks into
the emitted values. -/
theorem C4_counterexample :
    (aggRun idLib runPreLoud initState).2.map FlushOut.key =
      (aggRun idLib runPreSilent initState).2.map FlushOut.key ∧
    (aggRun idLib runPreLoud initState).2.map FlushOut.avgSPL ≠
      (aggRun idLib runPreSilent initState).2.map FlushOut.avgSPL := by
  norm_num [aggRun, aggStep, loudnessPhase, alignPhase, tempPhase, rolloverPhase,
    accumulatePhase, rollReset, rolloverFires, blockDbfs, blockRms, sumSq,
    shift8_zero, shift8_loud, estSPLOf, readThermistorC_legacyADC1, elapsed32,
    initState, idLib, blkSilent, blkLoud, t120030, t120100, t120200, runPreLoud,
    runPreSilent, ALPHA, CAL_OFFSET_DB, FULL_SCALE_24, TEMP_SAMPLE_PERIOD_MS, VCC,
    flushValues, FlushOut.key, DateTimeR.key, AggState.bucketKey]

/-- C4 (amended): the aggregator starts UNALIGNED; a step from an
UNALIGNED state becomes ALIGNED exactly when it processes an audio block
and the clock's seconds-field is 0 (capturing that reading's key as the
open bucket with a zeroed accumulator); ALIGNED is absorbing; no record is
emitted from an UNALIGNED iteration; and readings observed while UNALIGNED
are never accumulated — no sum or count changes on a non-aligning
unaligned iteration, and the aligning transition zeroes the accumulator.
(They do, however, update the persistent `dbfs_smooth`, which is why the
original claim's "contributes to no emitted record" fails — see the
counterexample.) -/
theorem C4_alignment_state_machine (L : FloatLib) (st : AggState)
    (inp : LoopInput) :
    initState.minuteAligned = false ∧
    (st.minuteAligned = false →
      ((aggStep L inp st).1.minuteAligned = true ↔
        inp.audio ≠ none ∧ inp.now.second = 0)) ∧
    (st.minuteAligned = true → (aggStep L inp st).1.minuteAligned = true) ∧
    (st.minuteAligned = false → (aggStep L inp st).2 = none) ∧
    (st.minuteAligned = false → inp.now.second ≠ 0 →
      (aggStep L inp st).1.splSum = st.splSum ∧
      (aggStep L inp st).1.dbfsSum = st.dbfsSum ∧
      (aggStep L inp st).1.splCount = st.splCount ∧
      (aggStep L inp st).1.tempSumC = st.tempSumC ∧
      (aggStep L inp st).1.tempCount = st.tempCount) ∧
    (st.minuteAligned = false → inp.now.second = 0 → ∀ b, inp.audio = some b →
      alignPhase inp.now (loudnessPhase L b st) =
        some { rollReset inp.now (loudnessPhase L b st) with minuteAligned := true } ∧
      (rollReset inp.now (loudnessPhase L b st)).splSum = 0 ∧
      (rollReset inp.now (loudnessPhase L b st)).splCount = 0 ∧
      (rollReset inp.now (loudnessPhase L b st)).tempSumC = 0 ∧
      (rollReset inp.now (loudnessPhase L b st)).tempCount = 0 ∧
      (rollReset inp.now (loudnessPhase L b st)).splMax = -999) := by
  refine ⟨rfl, fun hF => ⟨fun hpost => ?_, fun hc => ?_⟩, fun hA => aggStep_post_aligned L inp st hA,
    fun hF => aggStep_unaligned_none L inp st hF, fun hF h2 => ?_, fun hF h2 b hau => ?_⟩
  · cases hau : inp.audio with
    | none =>
      rw [aggStep_noAudio L inp st hau] at hpost
      exact absurd (hF ▸ hpost) (by simp)
    | some b =>
      by_cases h2 : inp.now.second = 0
      · exact ⟨by simp [hau], h2⟩
      · rw [aggStep_unaligned_skip L inp st b hau hF h2] at hpost
        rw [(loudnessPhase_preserves L b st).1, hF] at hpost
        exact absurd hpost (by simp)
  · obtain ⟨hne, h2⟩ := hc
    cases hau : inp.audio with
    | none => exact absurd hau hne
    | some b =>
      rw [aggStep_unaligned_aligns L inp st b hau hF h2]
      dsimp only
      rw [(accumulatePhase_fields _).1, (tempPhase_preserves _ _ _).2.1]
  · cases hau : inp.audio with
    | none => rw [aggStep_noAudio L inp st hau]; exact ⟨rfl, rfl, rfl, rfl, rfl⟩
    | some b =>
      rw [aggStep_unaligned_skip L inp st b hau hF h2]
      obtain ⟨lP1, lP2, lP3, lP4, lP5, lP6, lP7⟩ := loudnessPhase_preserves L b st
      exact ⟨lP3, lP4, lP5, lP6, lP7⟩
  · exact ⟨alignPhase_aligns _ _ ((loudnessPhase_preserves L b st).1.trans hF) h2,
      rfl, rfl, rfl, rfl, rfl⟩

/-- C4 witness: starting from boot, the step at 12:00:00 aligns, while a
step at 12:00:30 stays unaligned, emits nothing and accumulates nothing. -/
theorem C4_witness :
    initState.minuteAligned = false ∧
    (aggStep idLib inAlign initState).1.minuteAligned = true ∧
    (aggStep idLib ⟨some blkSilent, t120030, 0, 0⟩ initState).2 = none ∧
    (aggStep idLib ⟨some blkSilent, t120030, 0, 0⟩ initState).1.splCount =
      initState.splCount := by
  have h1 := C4_alignment_state_machine idLib initState inAlign
  have h2 := C4_alignment_state_machine idLib initState ⟨some blkSilent, t120030, 0, 0⟩
  refine ⟨h1.1, ?_, h2.2.2.2.1 rfl, (h2.2.2.2.2.1 rfl (by decide)).2.2.1⟩
  exact (h1.2.1 rfl).mpr ⟨by simp [inAlign], rfl⟩

/-- C5: the relay holding cell is a single-slot mailbox with
overwrite-on-full semantics: after any nonempty sequence of valid
receptions (payload length 38 or 34) with no intervening drain, the
pending flag is set and the cell holds exactly the decode of the most
recent payload; hence when two 38-byte messages arrive back-to-back
before the main loop drains, the drain forwards only the second message
and the first (when distinct) is not forwarded. -/
theorem C5_single_slot_mailbox (msgs : List (List Nat × Nat))
    (st : MailboxState) (d1 d2 : List Nat) (hne : msgs ≠ [])
    (hv : ∀ m ∈ msgs, m.2 = sizeofMinuteMsg ∨ m.2 = sizeofMinuteMsg_V1) :
    ((recvAll msgs st).remotePending = true ∧
     (recvAll msgs st).remoteLast = decodeOf (msgs.getLast hne)) ∧
    (drainStep (recvAll [(d1, sizeofMinuteMsg), (d2, sizeofMinuteMsg)] st)).2 =
      some (decodeMinuteMsg d2) ∧
    (decodeMinuteMsg d1 ≠ decodeMinuteMsg d2 →
      (drainStep (recvAll [(d1, sizeofMinuteMsg), (d2, sizeofMinuteMsg)] st)).2 ≠
        some (decodeMinuteMsg d1)) := by
  have hdrain : (drainStep (recvAll [(d1, sizeofMinuteMsg), (d2, sizeofMinuteMsg)] st)).2 =
      some (decodeMinuteMsg d2) := by
    simp [recvAll, onRecv, drainStep]
  refine ⟨recvAll_valid msgs st hne hv, hdrain, fun hne12 => ?_⟩
  rw [hdrain]
  intro hc
  exact hne12 (Option.some.inj hc).symm

/-- C5 witness: one valid V1 reception sets the flag and stores its
decode; two back-to-back 38-byte receptions followed by a drain forward
only the second payload's decode. -/
theorem C5_witness :
    (recvAll [([7], sizeofMinuteMsg_V1)] initMailbox).remotePending = true ∧
    (recvAll [([7], sizeofMinuteMsg_V1)] initMailbox).remoteLast =
      decodeOf ([7], sizeofMinuteMsg_V1) ∧
    (drainStep (recvAll [([1], sizeofMinuteMsg), ([2], sizeofMinuteMsg)]
        initMailbox)).2 = some (decodeMinuteMsg [2]) := by
  have h := C5_single_slot_mailbox [([7], sizeofMinuteMsg_V1)] initMailbox [1] [2]
    (by simp) (by simp)
  exact ⟨h.1.1, h.1.2, h.2.1⟩

/-- C6 (counterexample): the claim says a payload of unrecognized length
is logged and discarded.  It is indeed discarded without touching the
holding cell or the pending flag, but the handler (lines 139-160) contains
no logging call at all: the rejection produces no log line, so the
"logged" part of the claim is false on this code. -/
theorem C6_counterexample :
    (onRecv [1, 2, 3] 3 initMailbox).1 = initMailbox ∧
    (onRecv [1, 2, 3] 3 initMailbox).2 = [] := by
  decide

/-- C6 (amended): the receive handler decides the message version solely
by total byte length: a 38-byte payload is accepted as the newer version,
a 34-byte payload is accepted with its temperature field set to the NaN
pattern, and a payload of any other length is silently discarded (the
handler emits no log) without modifying the holding cell's last-good value
or the pending flag. -/
theorem C6_length_dispatch (data : List Nat) (len : Nat) (st : MailboxState) :
    (len = sizeofMinuteMsg →
      onRecv data len st =
        ({ remotePending := true, remoteLast := decodeMinuteMsg data }, [])) ∧
    (len = sizeofMinuteMsg_V1 →
      onRecv data len st =
        ({ remotePending := true, remoteLast := decodeMinuteMsg_V1 data }, []) ∧
      (decodeMinuteMsg_V1 data).temp_c = NAN_BITS) ∧
    (len ≠ sizeofMinuteMsg → len ≠ sizeofMinuteMsg_V1 →
      onRecv data len st = (st, [])) := by
  refine ⟨fun h => ?_, fun h => ⟨?_, rfl⟩, fun h1 h2 => ?_⟩
  · simp [onRecv, h]
  · subst h
    simp [onRecv, sizeofMinuteMsg, sizeofMinuteMsg_V1]
  · simp [onRecv, h1, h2]

/-- C6 witness: a 38-byte-length reception is accepted as the newer
version; a 7-byte payload leaves the mailbox untouched. -/
theorem C6_witness :
    onRecv [5] sizeofMinuteMsg initMailbox =
      ({ remotePending := true, remoteLast := decodeMinuteMsg [5] }, []) ∧
    onRecv [5] 7 initMailbox = (initMailbox, []) := by
  have h1 := C6_length_dispatch [5] sizeofMinuteMsg initMailbox
  have h2 := C6_length_dispatch [5] 7 initMailbox
  exact ⟨h1.1 rfl, h2.2.2 (by decide) (by decide)⟩

theorem supabaseBody_celsius_mem (sensor_id : Int) (lat lon : ℚ)
    (location_name : String) (year month day hour minute second : Int)
    (average_db max_db : ℚ) (celsius : Option ℚ) :
    (∃ f ∈ supabaseBody sensor_id lat lon location_name year month day hour
        minute second average_db max_db celsius, f.name = "celsius") ↔
      celsius ≠ none := by
  cases celsius with
  | some c =>
    simp only [ne_eq, reduceCtorEq, not_false_iff, iff_true]
    exact ⟨JField.num "celsius" c, by simp [supabaseBody], rfl⟩
  | none =>
    constructor
    · rintro ⟨f, hf, hname⟩
      exfalso
      simp only [supabaseBody, List.append_nil, List.mem_cons, List.not_mem_nil,
        or_false] at hf
      rcases hf with h | h | h | h | h | h | h <;> subst h <;>
        simp only [JField.name] at hname <;> exact absurd hname (by decide)
    · intro hc
      exact absurd rfl hc

/-- C7 (counterexample): the claim says a non-success status is logged
with the response body truncated to 200 characters.  With WiFi up, a
successful `http.begin` and a 400 response carrying a 300-character body,
the failure log line is the full 336-character line (35-character prefix,
the whole 300-character response, a newline): `logf`'s only truncation is its
420-byte buffer, so far more than 200 characters of the response body are
logged. -/
theorem C7_counterexample :
    (uploadToSupabase envFail400 3 0 0 "x" 2025 3 10 12 0 0 50 60 none).logLine =
      some ("Supabase POST failed code=400 resp=" ++ resp300 ++ "\n") ∧
    ("Supabase POST failed code=400 resp=" ++ resp300 ++ "\n").length = 336 := by
  have hlen : ("Supabase POST failed code=400 resp=" ++ resp300 ++ "\n").length = 336 := by
    have h35 : ("Supabase POST failed code=400 resp=" : String).length = 35 := by decide
    have h300 : resp300.length = 300 := by
      show (String.mk (List.replicate 300 'a')).length = 300
      rw [String.length_mk, List.length_replicate]
    have h1 : ("\n" : String).length = 1 := by decide
    simp [String.length_append, h35, h300, h1]
  refine ⟨?_, hlen⟩
  have htrunc := logfLine_of_le ("Supabase POST failed code=400 resp=" ++ resp300 ++ "\n")
    (by rw [hlen]; norm_num)
  simp only [uploadToSupabase, envFail400]
  norm_num
  rw [← htrunc]
  rfl

/-- C7 (amended): the upload reports success exactly when the WiFi link is
up, `http.begin` succeeds, and the HTTP status is 201 or 204; when a body
is posted it contains the `celsius` member exactly when a valid
temperature was aggregated (`celsius ≠ none`, i.e. not NaN); any other
status is logged with the line truncated only by the 420-byte `logf`
buffer (419 characters — not 200); and when WiFi is down nothing is posted
and failure is reported (the record is dropped; no retry or buffering
exists in the code). -/
theorem C7_upload_contract (env : UploadEnv) (sensor_id : Int) (lat lon : ℚ)
    (location_name : String) (year month day hour minute second : Int)
    (average_db max_db : ℚ) (celsius : Option ℚ) :
    ((uploadToSupabase env sensor_id lat lon location_name year month day hour
        minute second average_db max_db celsius).ok = true ↔
      env.wifiConnected = true ∧ env.beginOk = true ∧
        (env.code = 201 ∨ env.code = 204)) ∧
    (env.wifiConnected = true → env.beginOk = true →
      (uploadToSupabase env sensor_id lat lon location_name year month day hour
          minute second average_db max_db celsius).posted =
        some (supabaseBody sensor_id lat lon location_name year month day hour
          minute second average_db max_db celsius) ∧
      ((∃ f ∈ supabaseBody sensor_id lat lon location_name year month day hour
          minute second average_db max_db celsius, f.name = "celsius") ↔
        celsius ≠ none)) ∧
    (env.wifiConnected = true → env.beginOk = true →
      ¬(env.code = 201 ∨ env.code = 204) →
      (uploadToSupabase env sensor_id lat lon location_name year month day hour
          minute second average_db max_db celsius).logLine =
        some (logfLine ("Supabase POST failed code=" ++ toString env.code ++
          " resp=" ++ env.resp ++ "\n"))) ∧
    (env.wifiConnected = false →
      (uploadToSupabase env sensor_id lat lon location_name year month day hour
          minute second average_db max_db celsius).ok = false ∧
      (uploadToSupabase env sensor_id lat lon location_name year month day hour
          minute second average_db max_db celsius).posted = none) := by
  unfold uploadToSupabase
  by_cases hw : env.wifiConnected
  · by_cases hb : env.beginOk
    · by_cases hc : env.code = 201 ∨ env.code = 204
      · refine ⟨?_, fun _ _ => ⟨?_, supabaseBody_celsius_mem _ _ _ _ _ _ _ _ _ _ _ _ _⟩,
          fun _ _ hnc => absurd hc hnc, fun hwf => absurd hw (by simp [hwf])⟩ <;>
          simp [hw, hb, hc]
      · refine ⟨?_, fun _ _ => ⟨?_, supabaseBody_celsius_mem _ _ _ _ _ _ _ _ _ _ _ _ _⟩,
          fun _ _ _ => ?_, fun hwf => absurd hw (by simp [hwf])⟩ <;>
          simp [hw, hb, hc]
    · have hb' : env.beginOk = false := Bool.not_eq_true _ ▸ hb
      refine ⟨?_, fun _ hbt => absurd hbt (by simp [hb']), fun _ hbt => absurd hbt (by simp [hb']),
        fun hwf => absurd hw (by simp [hwf])⟩
      simp [hw, hb']
  · have hw' : env.wifiConnected = false := Bool.not_eq_true _ ▸ hw
    refine ⟨?_, fun hwt => absurd hwt (by simp [hw']), fun hwt => absurd hwt (by simp [hw']),
      fun _ => ?_⟩ <;> simp [hw']

/-- C7 witness: a 204 response with a valid temperature posts a body
containing `celsius` and reports success; a 500 response with WiFi up
produces the failure log line. -/
theorem C7_witness :
    (uploadToSupabase ⟨true, true, 204, ""⟩ 3 0 0 "x" 2025 3 10 12 0 0 50 60
        (some 21)).ok = true ∧
    (uploadToSupabase ⟨true, true, 204, ""⟩ 3 0 0 "x" 2025 3 10 12 0 0 50 60
        (some 21)).posted =
      some (supabaseBody 3 0 0 "x" 2025 3 10 12 0 0 50 60 (some 21)) ∧
    (uploadToSupabase ⟨true, true, 500, "oops"⟩ 3 0 0 "x" 2025 3 10 12 0 0 50 60
        none).logLine =
      some (logfLine ("Supabase POST failed code=" ++ toString (500 : Int) ++
        " resp=" ++ "oops" ++ "\n")) := by
  have h1 := C7_upload_contract ⟨true, true, 204, ""⟩ 3 0 0 "x" 2025 3 10 12 0 0 50 60 (some 21)
  have h2 := C7_upload_contract ⟨true, true, 500, "oops"⟩ 3 0 0 "x" 2025 3 10 12 0 0 50 60 none
  exact ⟨h1.1.mpr ⟨rfl, rfl, Or.inr rfl⟩, (h1.2.1 rfl rfl).1,
    h2.2.2.1 rfl rfl (by decide)⟩

/-- C8: BucketKey equality is reflexive and field-wise — two keys are
equal iff all five fields match, so keys differing only in `minute` are
unequal — and rollover detection is idempotent: after an aligned step that
processed clock reading `now`, the open bucket's key equals `now`'s key,
so a second step observing the same unchanged clock reading emits no
second record. -/
theorem C8_bucketkey_equality_and_idempotence (k k₁ k₂ : BucketKey)
    (L : FloatLib) (st : AggState) (inp inp2 : LoopInput) (b : List Int)
    (hau : inp.audio = some b) (hA : st.minuteAligned = true)
    (hsame : inp2.now = inp.now) :
    k = k ∧
    (k₁ = k₂ ↔ k₁.year = k₂.year ∧ k₁.month = k₂.month ∧ k₁.day = k₂.day ∧
      k₁.hour = k₂.hour ∧ k₁.minute = k₂.minute) ∧
    (k₁.minute ≠ k₂.minute → k₁ ≠ k₂) ∧
    (aggStep L inp st).1.bucketKey = inp.now.key ∧
    (aggStep L inp2 (aggStep L inp st).1).2 = none := by
  have hpostA := aggStep_post_aligned L inp st hA
  have hpostK := aggStep_post_bucketKey L inp st b hau hA
  refine ⟨rfl, ?_, fun hm he => hm (congrArg BucketKey.minute he), hpostK, ?_⟩
  · cases k₁
    cases k₂
    simp [BucketKey.mk.injEq]
  · cases hau2 : inp2.audio with
    | none => rw [aggStep_noAudio L inp2 _ hau2]
    | some b2 =>
      have hnf : ¬rolloverFires inp2.now (aggStep L inp st).1 := by
        rw [rolloverFires_iff, hsame, hpostK]
        simp
      rw [aggStep_emit_eq L inp2 _ b2 hau2 hpostA, if_neg hnf]

/-- C8 witness: keys differing only in the minute are unequal, and after a
rollover at 12:01:00 a second iteration seeing the same 12:01:00 clock
reading emits nothing. -/
theorem C8_witness :
    ((⟨2025, 3, 10, 12, 0⟩ : BucketKey) ≠ ⟨2025, 3, 10, 12, 1⟩) ∧
    (aggStep idLib ⟨some blkSilent, t120100, 60000, 0⟩
        (aggStep idLib inAlign initState).1).1.bucketKey = t120100.key ∧
    (aggStep idLib ⟨some blkLoud, t120100, 61000, 0⟩
        (aggStep idLib ⟨some blkSilent, t120100, 60000, 0⟩
          (aggStep idLib inAlign initState).1).1).2 = none := by
  have h := C8_bucketkey_equality_and_idempotence ⟨2025, 3, 10, 12, 0⟩
    ⟨2025, 3, 10, 12, 0⟩ ⟨2025, 3, 10, 12, 1⟩ idLib
    (aggStep idLib inAlign initState).1 ⟨some blkSilent, t120100, 60000, 0⟩
    ⟨some blkLoud, t120100, 61000, 0⟩ blkSilent rfl stA_aligned rfl
  exact ⟨h.2.2.1 (by decide), h.2.2.2.1, h.2.2.2.2⟩

/-- C9: a saturated ADC reading (`raw ≤ 0` or `raw ≥ 4095`) yields the
NaN sentinel, as does a zero calibrated millivolt value (the NaN
intermediates of the divider computation); a NaN (`none`) or
out-of-range (≤ −40 or ≥ 125 °C) sample is not added to the temperature
sum and not counted; and a record emitted by an iteration whose
temperature sample was invalid carries a temperature average computed
from the previously accumulated valid samples only. -/
theorem C9_invalid_temperature_discarded (L : FloatLib) (raw : Int)
    (ms : Nat) (st : AggState) (t : ℚ) (inp : LoopInput) (r : FlushOut) :
    (raw ≤ 0 ∨ 4095 ≤ raw → readThermistorC_legacyADC1 L raw = none) ∧
    (L.adcRawToVoltage raw = 0 → readThermistorC_legacyADC1 L raw = none) ∧
    ((tempPhase ms none st).tempSumC = st.tempSumC ∧
     (tempPhase ms none st).tempCount = st.tempCount) ∧
    (t ≤ -40 ∨ 125 ≤ t →
      (tempPhase ms (some t) st).tempSumC = st.tempSumC ∧
      (tempPhase ms (some t) st).tempCount = st.tempCount) ∧
    ((readThermistorC_legacyADC1 L inp.thermRaw = none ∨
      (∃ u, readThermistorC_legacyADC1 L inp.thermRaw = some u ∧
        (u ≤ -40 ∨ 125 ≤ u))) →
     (aggStep L inp st).2 = some r →
     r.avgTempC =
       (if 0 < st.tempCount then some (st.tempSumC / (st.tempCount : ℚ))
        else none)) := by
  refine ⟨fun h => ?_, fun h => ?_, tempPhase_none_tempFields ms st,
    fun h => tempPhase_invalid_tempFields ms t st h, fun hbad he => ?_⟩
  · unfold readThermistorC_legacyADC1
    rw [if_pos h]
  · by_cases hs : raw ≤ 0 ∨ 4095 ≤ raw
    · unfold readThermistorC_legacyADC1
      rw [if_pos hs]
    · simp [readThermistorC_legacyADC1, hs, h]
  · have hA := aggStep_emits_aligned_pre L inp st r he
    obtain ⟨b, hau⟩ := aggStep_emits_audio L inp st r he
    obtain ⟨hf, hr⟩ := aggStep_emit_record L inp st b r hau hA he
    subst hr
    obtain ⟨lP1, lP2, lP3, lP4, lP5, lP6, lP7⟩ := loudnessPhase_preserves L b st
    have hsum : (tempPhase inp.ms (readThermistorC_legacyADC1 L inp.thermRaw)
        (loudnessPhase L b st)).tempSumC = st.tempSumC ∧
        (tempPhase inp.ms (readThermistorC_legacyADC1 L inp.thermRaw)
          (loudnessPhase L b st)).tempCount = st.tempCount := by
      rcases hbad with hn | ⟨u, hu, hrange⟩
      · rw [hn]
        obtain ⟨hx, hy⟩ := tempPhase_none_tempFields inp.ms (loudnessPhase L b st)
        exact ⟨hx.trans lP6, hy.trans lP7⟩
      · rw [hu]
        obtain ⟨hx, hy⟩ := tempPhase_invalid_tempFields inp.ms u (loudnessPhase L b st) hrange
        exact ⟨hx.trans lP6, hy.trans lP7⟩
    rw [(flushValues_fields _).2.2.2.1, hsum.1, hsum.2]

/-- C9 witness: a saturated raw count of 5000 (and −3) is rejected, an
out-of-range 200 °C sample is not counted, and the record flushed by an
iteration with a saturated thermistor reading carries no temperature
(nothing valid had accumulated). -/
theorem C9_witness :
    readThermistorC_legacyADC1 idLib 5000 = none ∧
    readThermistorC_legacyADC1 idLib (-3) = none ∧
    (tempPhase 60000 (some 200) (aggStep idLib inAlign initState).1).tempCount =
      (aggStep idLib inAlign initState).1.tempCount ∧
    (aggStep idLib ⟨some blkSilent, t120100, 60000, 5000⟩
        (aggStep idLib inAlign initState).1).2.map FlushOut.avgTempC =
      some none := by
  have h5000 := C9_invalid_temperature_discarded idLib 5000 60000
    (aggStep idLib inAlign initState).1 200
    ⟨some blkSilent, t120100, 60000, 5000⟩
    (flushValues (tempPhase 60000 (readThermistorC_legacyADC1 idLib 5000)
      (loudnessPhase idLib blkSilent (aggStep idLib inAlign initState).1)))
  have hm3 := C9_invalid_temperature_discarded idLib (-3) 0 initState 0
    inAlign (flushValues initState)
  have hn : readThermistorC_legacyADC1 idLib 5000 = none := h5000.1 (by norm_num)
  have hfires : rolloverFires
      (⟨some blkSilent, t120100, 60000, 5000⟩ : LoopInput).now
      (aggStep idLib inAlign initState).1 := by
    rw [rolloverFires_iff, stA_bucketKey]
    decide
  have he : (aggStep idLib ⟨some blkSilent, t120100, 60000, 5000⟩
      (aggStep idLib inAlign initState).1).2 =
      some (flushValues (tempPhase 60000 (readThermistorC_legacyADC1 idLib 5000)
        (loudnessPhase idLib blkSilent (aggStep idLib inAlign initState).1))) := by
    rw [aggStep_emit_eq idLib ⟨some blkSilent, t120100, 60000, 5000⟩
      (aggStep idLib inAlign initState).1 blkSilent rfl stA_aligned, if_pos hfires]
  have havg := h5000.2.2.2.2 (Or.inl hn) he
  refine ⟨hn, hm3.1 (by norm_num), (h5000.2.2.2.1 (by norm_num)).2, ?_⟩
  rw [he, Option.map_some', havg, stA_tempCount]
  simp

/-- C10 (counterexample): the claim says the loudness sample count is at
least 1 whenever the rollover check runs, the check running only on an
iteration after the alignment transition.  In fact the rollover check
(line 454) runs in the very iteration that aligns: at that point the
state is ALIGNED with `splCount = 0` (the accumulator was just zeroed and
lines 492-494 have not yet run) — though no record is emitted there, the
keys being equal. -/
theorem C10_counterexample :
    ((alignPhase t120000 (loudnessPhase idLib blkSilent initState)).map
      (fun st2 =>
        ((tempPhase 0 (readThermistorC_legacyADC1 idLib 0) st2).minuteAligned,
         (tempPhase 0 (readThermistorC_legacyADC1 idLib 0) st2).splCount))) =
      some (true, 0) ∧
    (aggStep idLib inAlign initState).2 = none := by
  constructor
  · rw [alignPhase_aligns t120000 (loudnessPhase idLib blkSilent initState) rfl rfl,
      Option.map_some']
    rw [readTherm_zero]
    rfl
  · exact aggStep_unaligned_none idLib inAlign initState rfl

/-- C10 (amended): in every reachable state at the start of an ALIGNED
loop iteration the loudness sample count is at least 1 (the aligning
iteration and every aligned iteration end by accumulating one reading at
lines 492-494); consequently every record the aggregator ever emits is
flushed with a positive count and takes the division branch — the
count-equals-zero sentinel branch of the flush is never taken in a
reachable run, even though the rollover check itself also runs (vacuously)
with count 0 in the aligning iteration. -/
theorem C10_flush_count_positive (L : FloatLib) (st : AggState)
    (h : Reachable L st) (inp : LoopInput) (r : FlushOut) :
    (st.minuteAligned = true → 1 ≤ st.splCount) ∧
    ((aggStep L inp st).2 = some r →
      1 ≤ st.splCount ∧
      r.avgSPL = st.splSum / (st.splCount : ℚ) ∧
      r.avgDBFS = st.dbfsSum / (st.splCount : ℚ)) := by
  refine ⟨reachable_aligned_count L h, fun he => ?_⟩
  have hA := aggStep_emits_aligned_pre L inp st r he
  obtain ⟨b, hau⟩ := aggStep_emits_audio L inp st r he
  have hc := reachable_aligned_count L h hA
  obtain ⟨hf, hr⟩ := aggStep_emit_record L inp st b r hau hA he
  subst hr
  obtain ⟨tP1, tP2, tP3, tP4, tP5, tP6, tP7⟩ := tempPhase_preserves inp.ms
    (readThermistorC_legacyADC1 L inp.thermRaw) (loudnessPhase L b st)
  obtain ⟨lP1, lP2, lP3, lP4, lP5, lP6, lP7⟩ := loudnessPhase_preserves L b st
  obtain ⟨f1, f2, f3, f4, f5⟩ := flushValues_fields
    (tempPhase inp.ms (readThermistorC_legacyADC1 L inp.thermRaw)
      (loudnessPhase L b st))
  refine ⟨hc, ?_, ?_⟩
  · rw [f1, tP6, lP5, tP4, lP3, if_pos (by omega)]
  · rw [f2, tP6, lP5, tP5, lP4, if_pos (by omega)]

/-- C10 witness: the state reached by the single aligning iteration is a
reachable aligned state with count 1. -/
theorem C10_witness : 1 ≤ (aggStep idLib inAlign initState).1.splCount := by
  have h := C10_flush_count_positive idLib (aggStep idLib inAlign initState).1
    (Reachable.step Reachable.init inAlign) inAlign (flushValues initState)
  exact h.1 stA_aligned

end MeshStat
